import Mathlib

/-
Shallow embedding of the pingo2 availability monitor.

Source files:
  * src/unnamed/part_000 — data model (`Target`, `TargetStatus`), the per-target
    monitor loop `runTarget`, the dispatcher `alert`, and the flap-suppression
    state machine `alertRoutine`.
  * src/comandrun.go — the notifier `CommandRun`.

Modelling choices:
  * Times and durations are `Int`, measured in seconds (Go `time.Time` /
    `time.Duration` are signed; all comparisons in the source are at second
    granularity: `time.Minute`, `time.Duration(n) * time.Second`).
  * The probe itself (HTTP/TCP/ping, lines 87-151 of part_000) is external I/O;
    its net effect on a cycle is the pair `(failed, errMsg)` that the probing
    block computes, which the cycle embedding takes as input.
  * `alertRoutine`'s nested loop is embedded as a two-mode state machine
    (WAITING / SUPPRESSING), with the single-shot standoff timer represented by
    a generation id and a deadline; a fire event whose id is not the currently
    active timer's id corresponds to a Go timer whose channel is no longer
    selected on, and is a no-op.
  * The Go channel `alertRequest` has element type `*TargetStatus` and is always
    sent `&status` — a pointer to the one live status of the target.  The
    debouncer step functions therefore return, besides the new mode and the
    dispatch list, the written-back value of that shared status (the effect of
    `alert` setting `LastAlert` and of line 244 `req2.Since = time.Now()`).
-/

namespace Pingo

/-- Minimum interval between checks (part_000 line 17). -/
def CheckInterval : Int := 30

/-- Default standoff window (part_000 line 20). -/
def StandoffInterval : Int := 60

/-- Target (part_000 lines 22-37). -/
structure Target where
  id : Int
  name : String
  addr : String
  host : String
  interval : Int
  keyword : String
  commandrun : String
deriving DecidableEq

/-- Config, as used by the core (fields read in part_000: `Standoff`, `Timeout`,
`Alert.Interval`, `Alert.ToEmail`; the nested `Alert` struct is flattened). -/
structure Config where
  standoff : Int
  timeout : Int
  alertInterval : Int
  toEmail : String
deriving DecidableEq

/-- TargetStatus (part_000 lines 39-46).  The Go field `Target *Target` is
embedded by value; `Target` is immutable after load. -/
structure TargetStatus where
  target : Target
  online : Bool
  errorMsg : String
  since : Int
  lastCheck : Int
  lastAlert : Int
deriving DecidableEq

/-- Interval clamp at `runTarget` startup (part_000 lines 57-59):
`if t.Interval < CheckInterval { t.Interval = CheckInterval }`. -/
def adjustInterval (interval : Int) : Int :=
  if interval < CheckInterval then CheckInterval else interval

/-- Standoff adjustment at `runTarget` startup (part_000 lines 67-72), applied
after the interval clamp: zero means "unset" and takes the 60s default; a
nonzero standoff not exceeding the (clamped) interval is raised to interval+1. -/
def adjustStandoff (cstandoff interval : Int) : Int :=
  if cstandoff = 0 then StandoffInterval
  else if cstandoff ≤ interval then interval + 1
  else cstandoff

/-- A notification actually handed to a transport by `alert`. -/
inductive Delivery
  | command (cmd : String)
  | email (dest : String)
deriving DecidableEq

/-- The dispatcher `alert` (part_000 lines 192-218).  `cmdErr` and `emailErr`
are the outcomes of the external calls `Commandrun` and `EmailAlert`; the Go
code only logs them.  Returns the written-back status (the Go code mutates
`*status` through the pointer: `status.LastAlert = time.Now()` is the last
statement, unconditionally), the list of attempted deliveries, and the logged
error messages. -/
def alert (now : Int) (st : TargetStatus) (cfg : Config)
    (cmdErr emailErr : Option String) :
    TargetStatus × List Delivery × List String :=
  let cmdDeliveries : List Delivery :=
    if st.target.commandrun ≠ "" then [Delivery.command st.target.commandrun]
    else []
  let cmdLogs : List String :=
    if st.target.commandrun ≠ "" then
      (match cmdErr with
       | some m => [m]
       | none => [])
    else []
  let emailDeliveries : List Delivery :=
    if cfg.toEmail ≠ "" then [Delivery.email cfg.toEmail]
    else []
  let emailLogs : List String :=
    if cfg.toEmail ≠ "" then
      (match emailErr with
       | some m => [m]
       | none => [])
    else []
  ({ st with lastAlert := now }, cmdDeliveries ++ emailDeliveries,
   cmdLogs ++ emailLogs)

/-- One iteration of the `runTarget` polling loop after the probe has run
(part_000 lines 84-185).  `failed`/`err` are what the probing block computed
(`status.ErrorMsg` is reset to "" at the top of the loop and then possibly
written by the probe, so its value after the probe is exactly `err`);
`status.LastCheck = time.Now()` is line 153.  Returns the updated live status
and whether an alert request was emitted on the `alertRequest` channel
(lines 159-183). -/
def runTargetCycle (now : Int) (cfg : Config) (failed : Bool) (err : String)
    (st : TargetStatus) : TargetStatus × Bool :=
  let st1 := { st with errorMsg := err, lastCheck := now }
  if failed then
    if st1.online then
      ({ st1 with online := false, since := now }, true)
    else
      (st1, decide (now - st1.lastAlert > cfg.alertInterval))
  else
    if st1.online then
      (st1, false)
    else
      ({ st1 with online := true }, true)

/-- Mode of the `alertRoutine` state machine: the outer loop (WAITING) or the
inner loop (SUPPRESSING, part_000 lines 231-257) with the active standoff
timer's generation id and absolute deadline. -/
inductive DMode
  | waiting
  | suppressing (tid : Nat) (deadline : Int)
deriving DecidableEq

/-- Debouncer task state: current mode plus the generation counter used to
give each `time.NewTimer` call (line 231) a fresh identity. -/
structure DebState where
  mode : DMode
  nextId : Nat
deriving DecidableEq

/-- `alertRoutine` handling one received alert request (part_000 lines
224-250).  `e` is the dereferenced current value of the shared status the
received pointer refers to.  Returns the new debouncer state, the written-back
value of that shared status, and the dispatches (each a call of `alert`,
recorded as the time and the status value passed in; the `LastAlert` write
performed inside `alert` appears in the written-back value). -/
def alertRoutineRequest (cfg : Config) (now : Int) (d : DebState)
    (e : TargetStatus) : DebState × TargetStatus × List (Int × TargetStatus) :=
  match d.mode with
  | DMode.waiting =>
      if e.online = true ∨ now - e.since > 60 then
        (d, { e with lastAlert := now }, [(now, e)])
      else
        ({ mode := DMode.suppressing d.nextId (now + cfg.standoff),
           nextId := d.nextId + 1 }, e, [])
  | DMode.suppressing _ _ =>
      if e.online = true then
        if now - e.since > cfg.standoff then
          (⟨DMode.waiting, d.nextId⟩,
           { e with lastAlert := now, since := now }, [(now, e)])
        else
          (⟨DMode.waiting, d.nextId⟩, { e with since := now }, [])
      else
        (d, e, [])

/-- `alertRoutine` handling a standoff-timer fire (part_000 lines 251-253).
`id` identifies which `time.NewTimer` fired and `live` is the current value of
the shared status (`req` is a pointer to it).  A fire of a timer that is not
the active timer of the current suppression cycle corresponds to an abandoned
timer whose channel is never again selected on: nothing happens. -/
def alertRoutineTimer (now : Int) (d : DebState) (id : Nat)
    (live : TargetStatus) : DebState × TargetStatus × List (Int × TargetStatus) :=
  match d.mode with
  | DMode.waiting => (d, live, [])
  | DMode.suppressing tid _ =>
      if id = tid then
        (⟨DMode.waiting, d.nextId⟩, { live with lastAlert := now }, [(now, live)])
      else
        (d, live, [])

/-- Whole per-target system: the single live `TargetStatus` (the monitor's
`status` variable, which the `alertRequest` channel aliases), the debouncer
state, and the accumulated dispatches. -/
structure SysState where
  live : TargetStatus
  deb : DebState
  dispatches : List (Int × TargetStatus)
deriving DecidableEq

/-- Fire the active standoff timer if its deadline precedes time `t` (the Go
select, lines 232-253, takes the ready timer case before a request that
arrives later). -/
def fireDue (t : Int) (s : SysState) : SysState :=
  match s.deb.mode with
  | DMode.waiting => s
  | DMode.suppressing tid dl =>
      if dl < t then
        let r := alertRoutineTimer dl s.deb tid s.live
        { live := r.2.1, deb := r.1, dispatches := s.dispatches ++ r.2.2 }
      else s

/-- One tick of the composed monitor/debouncer pair at time `t`, with the
probe outcome `(failed, err)`: any due timer fires first, then the monitor
cycle runs, and an emitted alert request is consumed by the debouncer (zero
probe and queue latency; the shared status aliasing is made explicit by
threading the debouncer's written-back value into `live`). -/
def sysCycle (cfg : Config) (t : Int) (failed : Bool) (err : String)
    (s : SysState) : SysState :=
  let s1 := fireDue t s
  let m := runTargetCycle t cfg failed err s1.live
  if m.2 then
    let r := alertRoutineRequest cfg t s1.deb m.1
    { live := r.2.1, deb := r.1, dispatches := s1.dispatches ++ r.2.2 }
  else
    { s1 with live := m.1 }

/-- Run the composed system over a list of ticks `(t, failed, err)`. -/
def sysRun (cfg : Config) (s : SysState) : List (Int × Bool × String) → SysState
  | [] => s
  | (t, failed, err) :: rest => sysRun cfg (sysCycle cfg t failed err s) rest

/-- `CommandRun` from src/comandrun.go.  `startErr` and `waitErr` are the
outcomes of the external calls `cmd.Start()` and `cmd.Wait()`.  The Go code
assigns `cmd.Wait()`'s error to `err` and then executes `return nil`, so the
wait outcome never reaches the caller (and is not logged either). -/
def CommandRun (startErr waitErr : Option String) : Option String :=
  match startErr with
  | some e => some ("error run command, err " ++ e)
  | none => none

/-! Sample data used by witnesses and counterexamples. -/

/-- A target with no notification command. -/
def t0 : Target :=
  { id := 1, name := "web", addr := "http://example.test", host := "",
    interval := 30, keyword := "", commandrun := "" }

/-- Adjusted config with a configured standoff of 31s against a 30s interval
(kept, since 31 > 30) and a 20s re-notify interval. -/
def cfgA : Config :=
  { standoff := adjustStandoff 31 (adjustInterval 30), timeout := 5,
    alertInterval := 20, toEmail := "" }

/-- Adjusted config with the standoff left unset, so the 60s default applies. -/
def cfgB : Config :=
  { standoff := adjustStandoff 0 (adjustInterval 30), timeout := 5,
    alertInterval := 300, toEmail := "" }

/-- Initial live status (part_000 line 81: `Online: true, Since: time.Now()`,
with the zero time 0 for the remaining timestamps). -/
def stInit : TargetStatus :=
  { target := t0, online := true, errorMsg := "", since := 0, lastCheck := 0,
    lastAlert := 0 }

/-- Initial composed state. -/
def sys0 : SysState :=
  { live := stInit, deb := { mode := DMode.waiting, nextId := 0 }, dispatches := [] }

/-- A status that has been offline since time 0. -/
def stDownOld : TargetStatus :=
  { target := t0, online := false, errorMsg := "conn refused", since := 0,
    lastCheck := 100, lastAlert := 0 }

/-- A status that just recovered from an outage that began at time 0. -/
def stRecovered : TargetStatus :=
  { target := t0, online := true, errorMsg := "", since := 0, lastCheck := 30,
    lastAlert := 0 }

/-- C2 counterexample: a Config with `Standoff` left unset (0) and an interval
of 100s.  The startup adjustment keeps the interval at 100 and defaults the
standoff to 60, so the claimed invariant `Standoff > Interval` fails. -/
theorem adjust_default_standoff_violation :
    adjustInterval 100 = 100 ∧ adjustStandoff 0 (adjustInterval 100) = 60 ∧
    ¬ adjustInterval 100 < adjustStandoff 0 (adjustInterval 100) := by
  decide

/-- C2 (amended): after the startup adjustment the effective interval is at
least 30s for every configured value, and the effective standoff strictly
exceeds the effective interval whenever the configured standoff is nonzero or
the effective interval is below 60s.  (With standoff unset/zero and an
interval of 60s or more, the 60s default is applied without being checked
against the interval, so `Standoff > Interval` does not hold there.) -/
theorem adjust_invariants (interval cstandoff : Int)
    (h : cstandoff ≠ 0 ∨ adjustInterval interval < 60) :
    30 ≤ adjustInterval interval ∧
    adjustInterval interval < adjustStandoff cstandoff (adjustInterval interval) := by
  have h30 : 30 ≤ adjustInterval interval := by
    unfold adjustInterval CheckInterval
    split <;> omega
  refine ⟨h30, ?_⟩
  unfold adjustStandoff StandoffInterval
  split
  · next hz =>
      rcases h with h | h
      · exact absurd hz h
      · omega
  · split
    · omega
    · omega

/-- C2 witness for `adjust_invariants`: a sub-minimum interval of 10s with an
unset standoff is adjusted to interval 30, standoff 60. -/
theorem adjust_invariants_witness :
    30 ≤ adjustInterval 10 ∧ adjustInterval 10 < adjustStandoff 0 (adjustInterval 10) :=
  adjust_invariants 10 0 (Or.inr (by decide))

/-- C7: `CommandRun` propagates a failure of `cmd.Start()` but returns `nil`
when the spawned process fails on exit — the error from `cmd.Wait()` is
assigned to `err` (a dead store) and the function returns `nil` regardless. -/
theorem commandRun_ignores_wait_error :
    CommandRun none (some "exit status 1") = none ∧
    CommandRun (some "fork failed") none =
      some "error run command, err fork failed" ∧
    CommandRun none none = none := by
  exact ⟨rfl, rfl, rfl⟩

/-- C10: `alert` always sets `LastAlert` to the current time on the status it
was handed, its result (status write-back and attempted deliveries) is
independent of whether the notifier calls failed — the debounce decision is
not rolled back and nothing is retried — and when neither a notification
command nor a destination email is configured nothing at all is delivered,
while `LastAlert` is still set. -/
theorem alert_sets_lastAlert (now : Int) (st : TargetStatus) (cfg : Config)
    (e1 e2 f1 f2 : Option String) :
    (alert now st cfg e1 e2).1 = { st with lastAlert := now } ∧
    (alert now st cfg e1 e2).1 = (alert now st cfg f1 f2).1 ∧
    (alert now st cfg e1 e2).2.1 = (alert now st cfg f1 f2).2.1 ∧
    (st.target.commandrun = "" → cfg.toEmail = "" →
      (alert now st cfg e1 e2).2.1 = []) := by
  refine ⟨rfl, rfl, rfl, ?_⟩
  intro hc he
  simp [alert, hc, he]

/-- C10 witness for `alert_sets_lastAlert`: a concrete dispatch at time 42
where the command notifier failed, no command and no email are configured, and
`LastAlert` is still set to 42 with zero deliveries. -/
theorem alert_sets_lastAlert_witness :
    (alert 42 stDownOld cfgB (some "boom") none).1 =
      { stDownOld with lastAlert := 42 } ∧
    (alert 42 stDownOld cfgB (some "boom") none).2.1 = [] :=
  ⟨(alert_sets_lastAlert 42 stDownOld cfgB (some "boom") none none none).1,
   (alert_sets_lastAlert 42 stDownOld cfgB (some "boom") none none none).2.2.2 rfl rfl⟩

/-- C6: in WAITING, an alert request `e` is dispatched immediately (and the
state stays WAITING) exactly when `e.Online` or `now - e.Since > 60` — the
constant is the fixed one minute of line 226, appearing in the statement
independently of `cfg.standoff`; otherwise the debouncer enters SUPPRESSING
holding `e`, with a fresh one-shot timer whose deadline is
`now + cfg.standoff`. -/
theorem waiting_dispatch_rule (cfg : Config) (now : Int) (n : Nat)
    (e : TargetStatus) :
    (e.online = true ∨ now - e.since > 60 →
      alertRoutineRequest cfg now ⟨DMode.waiting, n⟩ e =
        (⟨DMode.waiting, n⟩, { e with lastAlert := now }, [(now, e)])) ∧
    (e.online = false → now - e.since ≤ 60 →
      alertRoutineRequest cfg now ⟨DMode.waiting, n⟩ e =
        (⟨DMode.suppressing n (now + cfg.standoff), n + 1⟩, e, [])) := by
  constructor
  · intro h
    simp only [alertRoutineRequest]
    rw [if_pos h]
  · intro h1 h2
    simp only [alertRoutineRequest]
    rw [if_neg]
    rintro (h | h)
    · rw [h1] at h
      exact Bool.false_ne_true h
    · omega

/-- C6 witness for `waiting_dispatch_rule`: with the adjusted 31s standoff, a
down request 120s into its outage (Scenario D) is dispatched immediately,
while a down request at the very moment of the outage enters SUPPRESSING with
deadline `0 + 31`. -/
theorem waiting_dispatch_rule_witness :
    alertRoutineRequest cfgA 120 ⟨DMode.waiting, 0⟩ stDownOld =
      (⟨DMode.waiting, 0⟩, { stDownOld with lastAlert := 120 }, [(120, stDownOld)]) ∧
    alertRoutineRequest cfgA 0 ⟨DMode.waiting, 0⟩ stDownOld =
      (⟨DMode.suppressing 0 (0 + cfgA.standoff), 0 + 1⟩, stDownOld, []) :=
  ⟨(waiting_dispatch_rule cfgA 120 0 stDownOld).1 (Or.inr (by decide)),
   (waiting_dispatch_rule cfgA 0 0 stDownOld).2 rfl (by decide)⟩

/-- C5: in SUPPRESSING, a recovery request `e` (Online) arriving before the
timer fired is dispatched alone exactly when its downtime `now - e.Since`
exceeds `cfg.standoff`, and otherwise nothing is dispatched; in both cases the
debouncer returns to WAITING (the withheld down request is not dispatched by
this step, and by `stale_timer_noop` the abandoned timer can never dispatch it
later).  The written-back status records `req2.Since = time.Now()`
(line 244) and, on dispatch, `alert`'s `LastAlert` write. -/
theorem suppressing_recovery_rule (cfg : Config) (now : Int) (d : DebState)
    (tid : Nat) (dl : Int) (e : TargetStatus)
    (hmode : d.mode = DMode.suppressing tid dl) (he : e.online = true) :
    (now - e.since > cfg.standoff →
      alertRoutineRequest cfg now d e =
        (⟨DMode.waiting, d.nextId⟩,
         { e with lastAlert := now, since := now }, [(now, e)])) ∧
    (now - e.since ≤ cfg.standoff →
      alertRoutineRequest cfg now d e =
        (⟨DMode.waiting, d.nextId⟩, { e with since := now }, [])) := by
  constructor
  · intro h
    simp only [alertRoutineRequest, hmode]
    rw [if_pos he, if_pos h]
  · intro h
    simp only [alertRoutineRequest, hmode]
    rw [if_pos he, if_neg (by omega)]

/-- C5 witness for `suppressing_recovery_rule`: Scenario A with the default
60s standoff — recovery at t=30 from an outage that began at t=0 (downtime 30)
dispatches nothing, and a recovery at t=90 (downtime 90 > 60) dispatches
exactly the recovery event. -/
theorem suppressing_recovery_rule_witness :
    alertRoutineRequest cfgB 30 ⟨DMode.suppressing 0 60, 1⟩ stRecovered =
      (⟨DMode.waiting, 1⟩, { stRecovered with since := 30 }, []) ∧
    alertRoutineRequest cfgB 90 ⟨DMode.suppressing 0 60, 1⟩ stRecovered =
      (⟨DMode.waiting, 1⟩,
       { stRecovered with lastAlert := 90, since := 90 }, [(90, stRecovered)]) :=
  ⟨(suppressing_recovery_rule cfgB 30 ⟨DMode.suppressing 0 60, 1⟩ 0 60
      stRecovered rfl rfl).2 (by decide),
   (suppressing_recovery_rule cfgB 90 ⟨DMode.suppressing 0 60, 1⟩ 0 60
      stRecovered rfl rfl).1 (by decide)⟩

/-- C1 (amended): when the active standoff timer fires in SUPPRESSING, the
debouncer dispatches the withheld status and returns to WAITING, and a
subsequent still-down request whose `now - Since` exceeds 60s is dispatched
immediately under the WAITING rule.  (The claim's parenthetical — that every
subsequent still-down request necessarily has `now - Since > 60s` — fails:
see `standoff_renotify_resuppressed`.) -/
theorem timer_fire_dispatches_pending (cfg : Config) (now now2 : Int)
    (d : DebState) (tid : Nat) (dl : Int) (live e : TargetStatus) (n : Nat)
    (hmode : d.mode = DMode.suppressing tid dl) :
    alertRoutineTimer now d tid live =
      (⟨DMode.waiting, d.nextId⟩, { live with lastAlert := now },
       [(now, live)]) ∧
    (e.online = false → now2 - e.since > 60 →
      alertRoutineRequest cfg now2 ⟨DMode.waiting, n⟩ e =
        (⟨DMode.waiting, n⟩, { e with lastAlert := now2 }, [(now2, e)])) := by
  constructor
  · simp [alertRoutineTimer, hmode]
  · intro h1 h2
    simp only [alertRoutineRequest]
    rw [if_pos (Or.inr h2)]

/-- C1 witness for `timer_fire_dispatches_pending`: the 31s timer of a
suppression cycle fires at t=31 and dispatches the held status; a later
still-down request at t=100 (outage began at t=0, so 100 > 60) is dispatched
immediately from WAITING. -/
theorem timer_fire_dispatches_pending_witness :
    alertRoutineTimer 31 ⟨DMode.suppressing 0 31, 1⟩ 0 stDownOld =
      (⟨DMode.waiting, 1⟩, { stDownOld with lastAlert := 31 },
       [(31, stDownOld)]) ∧
    alertRoutineRequest cfgA 100 ⟨DMode.waiting, 1⟩ stDownOld =
      (⟨DMode.waiting, 1⟩, { stDownOld with lastAlert := 100 },
       [(100, stDownOld)]) :=
  ⟨(timer_fire_dispatches_pending cfgA 31 100 ⟨DMode.suppressing 0 31, 1⟩ 0 31
      stDownOld stDownOld 1 rfl).1,
   (timer_fire_dispatches_pending cfgA 31 100 ⟨DMode.suppressing 0 31, 1⟩ 0 31
      stDownOld stDownOld 1 rfl).2 rfl (by decide)⟩

/-- C1 counterexample: with interval 30s and configured standoff 31s (legal:
31 > 30, so the startup adjustment keeps it, see `cfgA`) and re-notify
interval 20s, a target that goes down at t=0 and stays down gives — running
the composed system at ticks 0, 30, 60 — exactly one dispatch, at t=31 (the
timer fire), after which the still-down re-notify request at t=60 has
`now - Since = 60 ≤ 60s` and is therefore suppressed again (the debouncer
re-enters SUPPRESSING with a new timer for t=91) instead of being dispatched
immediately under the WAITING rule. -/
theorem standoff_renotify_resuppressed :
    (sysRun cfgA sys0 [(0, true, "refused"), (30, true, "refused"),
       (60, true, "refused")]).dispatches.map Prod.fst = [31] ∧
    (sysRun cfgA sys0 [(0, true, "refused"), (30, true, "refused"),
       (60, true, "refused")]).deb.mode = DMode.suppressing 1 91 ∧
    60 - (sysRun cfgA sys0 [(0, true, "refused"), (30, true, "refused"),
       (60, true, "refused")]).live.since = 60 := by
  exact ⟨rfl, rfl, rfl⟩

/-- C9: a timer fire whose generation id is not the id of the currently
active suppression cycle's timer — in particular any fire arriving while the
debouncer is WAITING, i.e. after the cycle that created the timer was resolved
— is a no-op: no dispatch, no state change, no write to the shared status.
Moreover each suppression cycle takes a fresh id (the counter value, which is
then incremented), so an abandoned timer's id can never equal the active id of
a subsequent cycle. -/
theorem stale_timer_noop (now : Int) (d : DebState) (id : Nat)
    (live : TargetStatus) (cfg : Config) (n : Nat) (e : TargetStatus)
    (h : ∀ dl, d.mode ≠ DMode.suppressing id dl) :
    alertRoutineTimer now d id live = (d, live, []) ∧
    (e.online = false → now - e.since ≤ 60 →
      (alertRoutineRequest cfg now ⟨DMode.waiting, n⟩ e).1 =
        ⟨DMode.suppressing n (now + cfg.standoff), n + 1⟩) := by
  constructor
  · rcases d with ⟨mode, nid⟩
    cases mode with
    | waiting => rfl
    | suppressing tid dl =>
        simp only [alertRoutineTimer]
        rw [if_neg]
        intro hid
        exact h dl (by rw [hid])
  · intro h1 h2
    simp only [alertRoutineRequest]
    rw [if_neg]
    · rintro (hh | hh)
      · rw [h1] at hh
        exact Bool.false_ne_true hh
      · omega

/-- C9 witness for `stale_timer_noop`: the abandoned timer of the first
suppression cycle (id 0) fires while a later cycle (active id 1, deadline 91)
is in progress, and nothing happens; and a fresh suppression entered at t=60
takes the fresh id from the counter. -/
theorem stale_timer_noop_witness :
    alertRoutineTimer 95 ⟨DMode.suppressing 1 91, 2⟩ 0 stDownOld =
      (⟨DMode.suppressing 1 91, 2⟩, stDownOld, []) ∧
    (alertRoutineRequest cfgA 60 ⟨DMode.waiting, 1⟩ stDownOld).1 =
      ⟨DMode.suppressing 1 (60 + cfgA.standoff), 1 + 1⟩ :=
  ⟨(stale_timer_noop 95 ⟨DMode.suppressing 1 91, 2⟩ 0 stDownOld cfgA 1 stDownOld
      (fun dl h => by simp at h)).1,
   (stale_timer_noop 60 ⟨DMode.suppressing 1 91, 2⟩ 0 stDownOld cfgA 1 stDownOld
      (fun dl h => by simp at h)).2 rfl (by decide)⟩

/-- C3 counterexample: the `alertRequest` channel carries `*TargetStatus`
pointers to the single live status, not copies, and the Debouncer task writes
through them.  Concretely (default 60s standoff): the target goes down at t=0
(live `Since` becomes 0) and recovers at t=10.  The monitor's own transition
leaves `Since = 0` (first conjunct), yet after the composed cycle — which adds
only the Debouncer's handling of the recovery request (line 244,
`req2.Since = time.Now()`) — the live status has `Since = 10` (second
conjunct): a task other than the Monitor mutated the value the Debouncer
holds, which is the live instance itself. -/
theorem debouncer_mutation_counterexample :
    (runTargetCycle 10 cfgB false ""
       (sysCycle cfgB 0 true "refused" sys0).live).1.since = 0 ∧
    (sysRun cfgB sys0 [(0, true, "refused"), (10, false, "")]).live.since = 10 ∧
    (sysRun cfgB sys0 [(0, true, "refused"), (10, false, "")]).live.lastAlert = 0 := by
  exact ⟨rfl, rfl, rfl⟩

/-- C3 (amended): alert requests reach the Debouncer as a reference to the
live `TargetStatus`, and the Debouncer mutates that shared instance — a
recovery consumed during suppression resets its `Since` to the handling time,
and a dispatched recovery additionally gets `LastAlert` set by `alert` — so
the written-back status differs from the received one.  (Only the snapshots
sent to the Status Sink over the value-typed `res` channel are copies.) -/
theorem debouncer_mutates_shared_status (cfg : Config) (now : Int)
    (d : DebState) (tid : Nat) (dl : Int) (e : TargetStatus)
    (hmode : d.mode = DMode.suppressing tid dl) (he : e.online = true) :
    (alertRoutineRequest cfg now d e).2.1.since = now ∧
    ((alertRoutineRequest cfg now d e).2.2 ≠ [] →
      (alertRoutineRequest cfg now d e).2.1.lastAlert = now) := by
  simp only [alertRoutineRequest, hmode]
  rw [if_pos he]
  split
  · exact ⟨rfl, fun _ => rfl⟩
  · refine ⟨rfl, fun h => absurd rfl h⟩

/-- C3 witness for `debouncer_mutates_shared_status`: a recovery handled at
t=90 during suppression of an outage that began at t=0 leaves the shared
status with `Since = 90` and, since `90 - 0 > 60` dispatches it, with
`LastAlert = 90`. -/
theorem debouncer_mutates_shared_status_witness :
    (alertRoutineRequest cfgB 90 ⟨DMode.suppressing 0 60, 1⟩ stRecovered).2.1.since = 90 ∧
    (alertRoutineRequest cfgB 90 ⟨DMode.suppressing 0 60, 1⟩ stRecovered).2.1.lastAlert = 90 :=
  ⟨(debouncer_mutates_shared_status cfgB 90 ⟨DMode.suppressing 0 60, 1⟩ 0 60
      stRecovered rfl rfl).1,
   (debouncer_mutates_shared_status cfgB 90 ⟨DMode.suppressing 0 60, 1⟩ 0 60
      stRecovered rfl rfl).2 (by decide)⟩

/-- C4: on a previously-offline-now-healthy cycle the monitor flips `Online`
to true, leaves `Since` unchanged (still marking the start of the outage that
just ended) and emits an alert request; the monitor changes `Since` in no
other situation than the online-to-offline edge (conjuncts 2 and 3); and on
the debouncer side `Since` is written only while consuming an `Online = true`
event during suppression — the handling of a recovery edge (conjunct 4) —
never by a timer fire (conjunct 5). -/
theorem since_changes_only_on_edges (now : Int) (cfg : Config) (failed : Bool)
    (err : String) (st : TargetStatus) (d : DebState) (e live : TargetStatus)
    (id : Nat) :
    (st.online = false →
      (runTargetCycle now cfg false err st).1.online = true ∧
      (runTargetCycle now cfg false err st).1.since = st.since ∧
      (runTargetCycle now cfg false err st).2 = true) ∧
    (failed = true → st.online = false →
      (runTargetCycle now cfg failed err st).1.since = st.since) ∧
    (failed = false →
      (runTargetCycle now cfg failed err st).1.since = st.since) ∧
    ((alertRoutineRequest cfg now d e).2.1.since ≠ e.since →
      e.online = true ∧ ∃ tid dl, d.mode = DMode.suppressing tid dl) ∧
    (alertRoutineTimer now d id live).2.1.since = live.since := by
  refine ⟨?_, ?_, ?_, ?_, ?_⟩
  · intro h
    simp [runTargetCycle, h]
  · intro hf h
    simp [runTargetCycle, hf, h]
  · intro hf
    subst hf
    simp only [runTargetCycle]
    rw [if_neg (by decide)]
    split <;> rfl
  · rcases d with ⟨mode, nid⟩
    cases mode with
    | waiting =>
        simp only [alertRoutineRequest]
        split <;> intro h <;> exact absurd rfl h
    | suppressing tid dl =>
        simp only [alertRoutineRequest]
        intro h
        refine ⟨?_, tid, dl, rfl⟩
        by_contra hb
        rw [if_neg hb] at h
        exact h rfl
  · rcases d with ⟨mode, nid⟩
    cases mode with
    | waiting => rfl
    | suppressing tid dl =>
        simp only [alertRoutineTimer]
        split <;> rfl

/-- C4 witness for `since_changes_only_on_edges`: a recovery cycle at t=50 on
a status offline since t=0 yields `Online = true`, `Since = 0`, an emitted
request; a still-failed cycle at t=50 leaves `Since = 0`; and a timer fire
leaves `Since` untouched. -/
theorem since_changes_only_on_edges_witness :
    (runTargetCycle 50 cfgA false "" stDownOld).1.online = true ∧
    (runTargetCycle 50 cfgA false "" stDownOld).1.since = stDownOld.since ∧
    (runTargetCycle 50 cfgA false "" stDownOld).2 = true ∧
    (runTargetCycle 50 cfgA true "x" stDownOld).1.since = stDownOld.since ∧
    (alertRoutineTimer 50 ⟨DMode.suppressing 0 31, 1⟩ 0 stDownOld).2.1.since =
      stDownOld.since :=
  ⟨((since_changes_only_on_edges 50 cfgA true "x" stDownOld
      ⟨DMode.suppressing 0 31, 1⟩ stDownOld stDownOld 0).1 rfl).1,
   ((since_changes_only_on_edges 50 cfgA true "x" stDownOld
      ⟨DMode.suppressing 0 31, 1⟩ stDownOld stDownOld 0).1 rfl).2.1,
   ((since_changes_only_on_edges 50 cfgA true "x" stDownOld
      ⟨DMode.suppressing 0 31, 1⟩ stDownOld stDownOld 0).1 rfl).2.2,
   (since_changes_only_on_edges 50 cfgA true "x" stDownOld
      ⟨DMode.suppressing 0 31, 1⟩ stDownOld stDownOld 0).2.1 rfl rfl,
   (since_changes_only_on_edges 50 cfgA true "x" stDownOld
      ⟨DMode.suppressing 0 31, 1⟩ stDownOld stDownOld 0).2.2.2.2⟩

/-- C8: on an offline-and-still-failed cycle (no edge) the monitor emits an
alert request exactly when `now - LastAlert > cfg.alertInterval`, and the
cycle leaves `Online`, `Since` and `LastAlert` unchanged — so repeated
still-down cycles inside the re-notify window produce no Monitor-side alert
request. -/
theorem still_down_renotify (now : Int) (cfg : Config) (err : String)
    (st : TargetStatus) (h : st.online = false) :
    ((runTargetCycle now cfg true err st).2 = true ↔
      now - st.lastAlert > cfg.alertInterval) ∧
    (runTargetCycle now cfg true err st).1.online = false ∧
    (runTargetCycle now cfg true err st).1.since = st.since ∧
    (runTargetCycle now cfg true err st).1.lastAlert = st.lastAlert := by
  simp [runTargetCycle, h]

/-- C8 witness for `still_down_renotify`: with re-notify interval 20s and
`LastAlert = 0`, a still-failed cycle at t=15 emits nothing and one at t=100
emits a request, both leaving `Since` and `LastAlert` unchanged. -/
theorem still_down_renotify_witness :
    ((runTargetCycle 15 cfgA true "x" stDownOld).2 = true ↔
      15 - stDownOld.lastAlert > cfgA.alertInterval) ∧
    ((runTargetCycle 100 cfgA true "x" stDownOld).2 = true ↔
      100 - stDownOld.lastAlert > cfgA.alertInterval) ∧
    (runTargetCycle 100 cfgA true "x" stDownOld).1.since = stDownOld.since :=
  ⟨(still_down_renotify 15 cfgA "x" stDownOld rfl).1,
   (still_down_renotify 100 cfgA "x" stDownOld rfl).1,
   (still_down_renotify 100 cfgA "x" stDownOld rfl).2.2.1⟩

end Pingo
